import Mathlib

/-!
# Verification of the CARTEL47 frontend API client (`src/api.js`)

Shallow embedding of the browser-side HTTP client wrapper in `src/api.js`.
JavaScript runtime values that the client manipulates (session fields,
request options, parsed JSON bodies) are modelled by `JsVal`; `localStorage`
is an association list of string keys to string values; the browser `fetch`
transport is a function from a request to an outcome (an HTTP response with
a status and a body whose JSON-parse outcome is given, or a network-level
failure).  Each method of the `CartelAPI` class becomes a Lean function
taking the session state (and, where it mutates it, the storage) plus the
transport, and returning the result together with the list of network
requests it issued.
-/

set_option autoImplicit false

/-- JavaScript values, as far as the client inspects them: `undefined`,
`null`, strings, (integer) numbers, booleans and plain objects. -/
inductive JsVal where
  | undefined
  | null
  | str (s : String)
  | num (n : Int)
  | bool (b : Bool)
  | obj (fields : List (String × JsVal))

/-- JavaScript truthiness of a `JsVal` (`undefined`, `null`, `""`, `0` and
`false` are falsy; objects are always truthy). -/
def JsVal.truthy : JsVal → Bool
  | .undefined => false
  | .null => false
  | .str s => if s = "" then false else true
  | .num n => if n = 0 then false else true
  | .bool b => b
  | .obj _ => true

/-- JavaScript string coercion `String(v)` (used by template literals,
`URLSearchParams.append` and `localStorage.setItem`). -/
def JsVal.toStr : JsVal → String
  | .undefined => "undefined"
  | .null => "null"
  | .str s => s
  | .num n => toString n
  | .bool b => if b then "true" else "false"
  | .obj _ => "[object Object]"

/-- First-match lookup of a field in a JavaScript object literal. -/
def jsField : List (String × JsVal) → String → JsVal
  | [], _ => .undefined
  | (k, v) :: rest, k' => if k = k' then v else jsField rest k'

/-! ## localStorage -/

/-- The browser's `localStorage`: a finite map from string keys to string
values, modelled as an association list without duplicate keys. -/
abbrev Storage := List (String × String)

/-- `localStorage.getItem(k)` (absent keys read as JS `null`, which the
client surfaces as `Option.none`). -/
def localStorage.getItem : Storage → String → Option String
  | [], _ => none
  | (k, v) :: rest, k' => if k = k' then some v else localStorage.getItem rest k'

/-- `localStorage.setItem(k, v)`: overwrite in place, or append. -/
def localStorage.setItem : Storage → String → String → Storage
  | [], k, v => [(k, v)]
  | (k', v') :: rest, k, v =>
    if k' = k then (k, v) :: rest else (k', v') :: localStorage.setItem rest k v

/-- `localStorage.removeItem(k)`. -/
def localStorage.removeItem : Storage → String → Storage
  | [], _ => []
  | (k', v') :: rest, k =>
    if k' = k then localStorage.removeItem rest k
    else (k', v') :: localStorage.removeItem rest k

/-! ## Headers -/

/-- Request headers: a string-keyed record, modelled as an association
list in insertion order. -/
abbrev Headers := List (String × String)

/-- Look a header up by (exact) name. -/
def hget : Headers → String → Option String
  | [], _ => none
  | (k, v) :: rest, k' => if k = k' then some v else hget rest k'

/-- Set a header, overwriting an existing entry for the same name (the
behaviour of property assignment / object spread on a JS object). -/
def hset : Headers → String → String → Headers
  | [], k, v => [(k, v)]
  | (k', v') :: rest, k, v =>
    if k' = k then (k, v) :: rest else (k', v') :: hset rest k v

/-- Merge a list of header entries into a header record, later entries
overriding earlier ones (JS object spread `{...a, ...b}`). -/
def hmerge (h : Headers) (l : List (String × String)) : Headers :=
  l.foldl (fun acc kv => hset acc kv.1 kv.2) h

/-! ## Requests, transport outcomes, and errors -/

/-- One outgoing HTTP request, as handed to the browser `fetch`. -/
structure Request where
  url : String
  method : String
  headers : Headers
  body : Option String
deriving DecidableEq

/-- The JSON-parse outcome of a response body: either it is not valid JSON
(`response.json()` rejects), or it parses to a value. -/
inductive RespBody where
  | unparseable
  | json (v : JsVal)

/-- Outcome of one transport round trip: an HTTP response carrying a
status code and a body, or a network-level failure (DNS, connection
refused, ...) that makes `fetch` reject with the given message. -/
inductive FetchResult where
  | response (status : Nat) (body : RespBody)
  | networkFailure (msg : String)

/-- The environment's transport: what the browser `fetch` does with each
request. -/
abbrev Transport := Request → FetchResult

/-- Errors a client method can reject with:
* `error msg` — a `new Error(msg)` thrown by the client itself (the
  spec's `AuthRequiredError` is `error "Not authenticated"`, its
  `RequestError` is `error m` with the server-derived message `m`);
* `jsonSyntaxError` — the rejection of `response.json()` on a body that
  is not valid JSON (its message is engine-specific);
* `typeError` — a TypeError thrown by member access on a `null` or
  `undefined` receiver (its message is engine-specific);
* `networkError msg` — a rejected `fetch` propagated unmodified. -/
inductive JsErr where
  | error (msg : String)
  | jsonSyntaxError
  | typeError
  | networkError (msg : String)
deriving DecidableEq

/-- JavaScript member access `v.k`, which can throw: on a `null` or
`undefined` receiver it throws a TypeError; on an object it looks the
field up (`undefined` when the field is missing); on the remaining
primitives (strings, numbers, booleans) it boxes the receiver and, for
the field names this client accesses, yields `undefined`. -/
def JsVal.getProp : JsVal → String → Except JsErr JsVal
  | .null, _ => .error .typeError
  | .undefined, _ => .error .typeError
  | .obj fields, k => .ok (jsField fields k)
  | _, _ => .ok .undefined

/-- `response.ok`: status in the inclusive range 200–299. -/
def responseOk (status : Nat) : Bool :=
  decide (200 ≤ status) && decide (status ≤ 299)

/-! ## The CartelAPI client -/

/-- The session state of the `CartelAPI` class: the `token`, `userId` and
`walletAddress` instance fields. -/
structure CartelAPI where
  token : JsVal
  userId : JsVal
  walletAddress : JsVal

/-- The default backend base URL used when no environment override is
configured. -/
def defaultBackendUrl : String := "http://localhost:3001/api"

/-- `API_BASE_URL = process.env.REACT_APP_BACKEND_URL || 'http://localhost:3001/api'`. -/
def API_BASE_URL (envBackendUrl : JsVal) : String :=
  if envBackendUrl.truthy then envBackendUrl.toStr else defaultBackendUrl

/-- The `CartelAPI` constructor: read the three persisted values from
storage (`getItem` returns `null` for absent keys). -/
def CartelAPI.construct (st : Storage) : CartelAPI :=
  { token := match localStorage.getItem st "cartel47_token" with
      | some s => .str s
      | none => .null
    userId := match localStorage.getItem st "cartel47_userId" with
      | some s => .str s
      | none => .null
    walletAddress := match localStorage.getItem st "cartel47_wallet" with
      | some s => .str s
      | none => .null }

/-- `setToken(token, userId, walletAddress)`: overwrite the three session
fields and persist each (stringified, as `localStorage` coerces values to
strings). -/
def CartelAPI.setToken (_s : CartelAPI) (st : Storage) (token userId walletAddress : JsVal) :
    CartelAPI × Storage :=
  ({ token := token, userId := userId, walletAddress := walletAddress },
    localStorage.setItem
      (localStorage.setItem
        (localStorage.setItem st "cartel47_token" token.toStr)
        "cartel47_userId" userId.toStr)
      "cartel47_wallet" walletAddress.toStr)

/-- `clearSession()`: null the three session fields and remove the three
persisted keys. -/
def CartelAPI.clearSession (_s : CartelAPI) (st : Storage) : CartelAPI × Storage :=
  ({ token := .null, userId := .null, walletAddress := .null },
    localStorage.removeItem
      (localStorage.removeItem
        (localStorage.removeItem st "cartel47_token")
        "cartel47_userId")
      "cartel47_wallet")

/-- The caller-supplied options of the generic fetch wrapper (`method`,
`headers`, `body`; a missing `method` means the transport default GET). -/
structure FetchOptions where
  method : Option String
  headers : List (String × String)
  body : Option String

/-- Empty options object `{}`. -/
def FetchOptions.none : FetchOptions := ⟨Option.none, [], Option.none⟩

/-- The header record built by the generic wrapper: start from
`{'Content-Type': 'application/json'}`, spread the caller's headers over
it, then, if the token is truthy, set `Authorization: Bearer <token>`. -/
def buildHeaders (token : JsVal) (optHeaders : List (String × String)) : Headers :=
  if token.truthy then
    hset (hmerge [("Content-Type", "application/json")] optHeaders)
      "Authorization" ("Bearer " ++ token.toStr)
  else hmerge [("Content-Type", "application/json")] optHeaders

/-- The single request the generic wrapper issues for a given endpoint and
options. -/
def CartelAPI.request (baseUrl : String) (s : CartelAPI) (endpoint : String)
    (opts : FetchOptions) : Request :=
  { url := baseUrl ++ endpoint
    method := opts.method.getD "GET"
    headers := buildHeaders s.token opts.headers
    body := opts.body }

/-- The generic fetch wrapper `CartelAPI.fetch(endpoint, options)`: build
the headers (bearer token attached when truthy), issue one request, and
* on a network failure, propagate it;
* on a non-ok status, parse the body as JSON (`jsonSyntaxError` if it does
  not parse) and throw `Error(body.error || 'API Error: ' + status)`,
  where the member access `body.error` itself throws a TypeError when the
  parsed body is JSON `null`;
* on an ok status, parse and return the JSON body (`jsonSyntaxError` if it
  does not parse).
Returns the outcome together with the list of requests issued. -/
def CartelAPI.fetch (baseUrl : String) (s : CartelAPI) (endpoint : String)
    (opts : FetchOptions) (t : Transport) : Except JsErr JsVal × List Request :=
  (match t (CartelAPI.request baseUrl s endpoint opts) with
    | .networkFailure msg => .error (.networkError msg)
    | .response status body =>
      if responseOk status then
        match body with
        | .unparseable => .error .jsonSyntaxError
        | .json v => .ok v
      else
        match body with
        | .unparseable => .error .jsonSyntaxError
        | .json v =>
          match v.getProp "error" with
          | .error te => .error te
          | .ok e =>
            .error (.error (if e.truthy then e.toStr
              else "API Error: " ++ toString status)),
    [CartelAPI.request baseUrl s endpoint opts])

/-! ## JSON.stringify (for request bodies) -/

/-- Escape one character for a JSON string literal (quotes and
backslashes; the bodies the client builds contain no control characters
worth modelling further). -/
def jsonEscapeChar (c : Char) : String :=
  if c = '"' then "\\\"" else if c = '\\' then "\\\\" else String.singleton c

/-- Escape a string for inclusion in a JSON string literal. -/
def jsonEscape (s : String) : String :=
  String.join (s.data.map jsonEscapeChar)

mutual

/-- `JSON.stringify` of one value; `none` for `undefined` (which
`JSON.stringify` omits inside objects). -/
def JSON.stringifyVal : JsVal → Option String
  | .undefined => none
  | .null => some "null"
  | .str s => some ("\"" ++ jsonEscape s ++ "\"")
  | .num n => some (toString n)
  | .bool b => some (if b then "true" else "false")
  | .obj fields => some ("\x7b" ++ String.intercalate "," (JSON.stringifyFields fields) ++ "\x7d")

/-- `JSON.stringify` of the fields of an object, dropping
`undefined`-valued keys. -/
def JSON.stringifyFields : List (String × JsVal) → List String
  | [] => []
  | (k, v) :: rest =>
    match JSON.stringifyVal v with
    | none => JSON.stringifyFields rest
    | some sv => ("\"" ++ jsonEscape k ++ "\":" ++ sv) :: JSON.stringifyFields rest

end

/-- `JSON.stringify({...})` of an object literal, as a request body. -/
def JSON.stringifyObj (fields : List (String × JsVal)) : String :=
  "\x7b" ++ String.intercalate "," (JSON.stringifyFields fields) ++ "\x7d"

/-! ## URLSearchParams -/

/-- Upper-case hex digit. -/
def hexDigit (n : Nat) : Char :=
  if n < 10 then Char.ofNat (48 + n) else Char.ofNat (55 + n)

/-- Percent-encode one byte. -/
def percentByte (b : Nat) : String :=
  "%" ++ String.singleton (hexDigit (b / 16)) ++ String.singleton (hexDigit (b % 16))

/-- The UTF-8 bytes of a character. -/
def utf8Bytes (c : Char) : List Nat :=
  let n := c.toNat
  if n < 128 then [n]
  else if n < 2048 then [192 + n / 64, 128 + n % 64]
  else if n < 65536 then [224 + n / 4096, 128 + (n / 64) % 64, 128 + n % 64]
  else [240 + n / 262144, 128 + (n / 4096) % 64, 128 + (n / 64) % 64, 128 + n % 64]

/-- `application/x-www-form-urlencoded` encoding of one character, as
`URLSearchParams` performs it: ASCII alphanumerics and `*-._` pass
through, a space becomes `+`, everything else is percent-encoded. -/
def formEncodeChar (c : Char) : String :=
  if c.isAlphanum || c = '*' || c = '-' || c = '.' || c = '_' then String.singleton c
  else if c = ' ' then "+"
  else String.join ((utf8Bytes c).map percentByte)

/-- `application/x-www-form-urlencoded` encoding of a string. -/
def formEncode (s : String) : String :=
  String.join (s.data.map formEncodeChar)

/-- `URLSearchParams.toString()` on a parameter list assembled by
successive `append` calls. -/
def URLSearchParams.render (params : List (String × String)) : String :=
  String.intercalate "&" (params.map fun kv => formEncode kv.1 ++ "=" ++ formEncode kv.2)

/-! ## String.prototype.replace with a string pattern -/

/-- `s.replace(pat, '')` on character lists: remove the first occurrence
of `pat`, leaving the string unchanged when `pat` does not occur. -/
def removeFirstL (pat : List Char) : List Char → List Char
  | [] => []
  | c :: cs =>
    if pat.isPrefixOf (c :: cs) then (c :: cs).drop pat.length
    else c :: removeFirstL pat cs

/-- JavaScript `s.replace(pat, '')` with a string pattern: removes only
the first occurrence of `pat`. -/
def strReplaceFirst (s pat : String) : String :=
  ⟨removeFirstL pat.data s.data⟩

/-! ## Domain methods -/

/-- `authenticateWallet(walletAddress, signature)`: POST to
`/auth/connect`; on success call `setToken(data.token, data.userId,
walletAddress)` and return the data.  Returns the outcome, the updated
session and storage, and the issued requests. -/
def CartelAPI.authenticateWallet (baseUrl : String) (s : CartelAPI) (st : Storage)
    (walletAddress signature : String) (t : Transport) :
    Except JsErr JsVal × CartelAPI × Storage × List Request :=
  match CartelAPI.fetch baseUrl s "/auth/connect"
    ⟨some "POST", [],
      some (JSON.stringifyObj
        [("walletAddress", .str walletAddress), ("signature", .str signature)])⟩ t with
  | (.ok data, tr) =>
    match data.getProp "token", data.getProp "userId" with
    | .error te, _ => (.error te, s, st, tr)
    | .ok _, .error te => (.error te, s, st, tr)
    | .ok tok, .ok uid =>
      (.ok data,
        (CartelAPI.setToken s st tok uid (.str walletAddress)).1,
        (CartelAPI.setToken s st tok uid (.str walletAddress)).2, tr)
  | (.error e, tr) => (.error e, s, st, tr)

/-- `getAllGames()`. -/
def CartelAPI.getAllGames (baseUrl : String) (s : CartelAPI) (t : Transport) :
    Except JsErr JsVal × List Request :=
  CartelAPI.fetch baseUrl s "/games" FetchOptions.none t

/-- `getGamesByCategory(category)`. -/
def CartelAPI.getGamesByCategory (baseUrl : String) (s : CartelAPI) (category : String)
    (t : Transport) : Except JsErr JsVal × List Request :=
  CartelAPI.fetch baseUrl s ("/games?category=" ++ category) FetchOptions.none t

/-- `getGame(gameId)`. -/
def CartelAPI.getGame (baseUrl : String) (s : CartelAPI) (gameId : String)
    (t : Transport) : Except JsErr JsVal × List Request :=
  CartelAPI.fetch baseUrl s ("/games/" ++ gameId) FetchOptions.none t

/-- `placeBet(gameId, betAmount, clientSeed)`: throws
`Error('Not authenticated')` before any network call if the token is
falsy; otherwise POSTs the JSON body `{gameId, betAmount, clientSeed}` to
`/bets/place`. -/
def CartelAPI.placeBet (baseUrl : String) (s : CartelAPI)
    (gameId : String) (betAmount : Int) (clientSeed : String) (t : Transport) :
    Except JsErr JsVal × List Request :=
  if !s.token.truthy then (.error (.error "Not authenticated"), [])
  else
    CartelAPI.fetch baseUrl s "/bets/place"
      ⟨some "POST", [],
        some (JSON.stringifyObj
          [("gameId", .str gameId), ("betAmount", .num betAmount),
            ("clientSeed", .str clientSeed)])⟩ t

/-- `getBet(betId)`: auth-gated GET of `/bets/{betId}`. -/
def CartelAPI.getBet (baseUrl : String) (s : CartelAPI) (betId : String)
    (t : Transport) : Except JsErr JsVal × List Request :=
  if !s.token.truthy then (.error (.error "Not authenticated"), [])
  else CartelAPI.fetch baseUrl s ("/bets/" ++ betId) FetchOptions.none t

/-- `settleBet(betId)`: auth-gated POST of an empty JSON body to
`/bets/{betId}/settle`. -/
def CartelAPI.settleBet (baseUrl : String) (s : CartelAPI) (betId : String)
    (t : Transport) : Except JsErr JsVal × List Request :=
  if !s.token.truthy then (.error (.error "Not authenticated"), [])
  else
    CartelAPI.fetch baseUrl s ("/bets/" ++ betId ++ "/settle")
      ⟨some "POST", [], some (JSON.stringifyObj [])⟩ t

/-- The options object of `getUserBets` (missing fields are
`undefined`). -/
structure BetQueryOptions where
  status : JsVal
  limit : JsVal
  offset : JsVal

/-- The parameter list `getUserBets` appends: each of `status`, `limit`,
`offset` is appended (stringified) exactly when it is truthy, in that
order. -/
def betQueryParams (options : BetQueryOptions) : List (String × String) :=
  (if options.status.truthy then [("status", options.status.toStr)] else [])
    ++ (if options.limit.truthy then [("limit", options.limit.toStr)] else [])
    ++ (if options.offset.truthy then [("offset", options.offset.toStr)] else [])

/-- `getUserBets(options)`: throws `Error('Not authenticated')` before any
network call if `userId` is falsy; otherwise GETs
`/bets/user/{userId}?{params}`. -/
def CartelAPI.getUserBets (baseUrl : String) (s : CartelAPI) (options : BetQueryOptions)
    (t : Transport) : Except JsErr JsVal × List Request :=
  if !s.userId.truthy then (.error (.error "Not authenticated"), [])
  else
    CartelAPI.fetch baseUrl s
      ("/bets/user/" ++ s.userId.toStr ++ "?" ++ URLSearchParams.render (betQueryParams options))
      FetchOptions.none t

/-- `deposit(amount, tokenSymbol)`: auth-gated POST to
`/transactions/deposit`. -/
def CartelAPI.deposit (baseUrl : String) (s : CartelAPI) (amount : Int)
    (tokenSymbol : String) (t : Transport) : Except JsErr JsVal × List Request :=
  if !s.token.truthy then (.error (.error "Not authenticated"), [])
  else
    CartelAPI.fetch baseUrl s "/transactions/deposit"
      ⟨some "POST", [],
        some (JSON.stringifyObj [("amount", .num amount), ("tokenSymbol", .str tokenSymbol)])⟩ t

/-- `withdraw(amount, tokenSymbol)`: auth-gated POST to
`/transactions/withdraw`. -/
def CartelAPI.withdraw (baseUrl : String) (s : CartelAPI) (amount : Int)
    (tokenSymbol : String) (t : Transport) : Except JsErr JsVal × List Request :=
  if !s.token.truthy then (.error (.error "Not authenticated"), [])
  else
    CartelAPI.fetch baseUrl s "/transactions/withdraw"
      ⟨some "POST", [],
        some (JSON.stringifyObj [("amount", .num amount), ("tokenSymbol", .str tokenSymbol)])⟩ t

/-- `getTransactions(type = null)`: auth-gated GET of `/transactions`,
with `?type=...` appended when `type` is truthy. -/
def CartelAPI.getTransactions (baseUrl : String) (s : CartelAPI) (ty : JsVal)
    (t : Transport) : Except JsErr JsVal × List Request :=
  if !s.token.truthy then (.error (.error "Not authenticated"), [])
  else
    CartelAPI.fetch baseUrl s
      (if ty.truthy then "/transactions?type=" ++ ty.toStr else "/transactions")
      FetchOptions.none t

/-- A health-check status record (`{status}` or `{status, error}`). -/
structure StatusRecord where
  status : String
  error : Option String
deriving DecidableEq

/-- The bare request `checkHealth` issues: a plain `fetch` of
`API_BASE_URL.replace('/api','') + '/health'` with no options, hence no
headers and no body. -/
def healthRequest (baseUrl : String) : Request :=
  { url := strReplaceFirst baseUrl "/api" ++ "/health"
    method := "GET", headers := [], body := none }

/-- `checkHealth()`: never throws; resolves `{status:'healthy'}` on an ok
response, `{status:'unhealthy'}` on a non-ok response, and
`{status:'offline', error: message}` when the transport fails.  The
session is unused: the raw `fetch` attaches no headers at all. -/
def CartelAPI.checkHealth (baseUrl : String) (_s : CartelAPI) (t : Transport) :
    StatusRecord × List Request :=
  (match t (healthRequest baseUrl) with
    | .networkFailure msg => { status := "offline", error := some msg }
    | .response status _ =>
      if responseOk status then { status := "healthy", error := none }
      else { status := "unhealthy", error := none },
    [healthRequest baseUrl])

/-- The bare request `checkDatabase` issues. -/
def dbCheckRequest (baseUrl : String) : Request :=
  { url := strReplaceFirst baseUrl "/api" ++ "/db-check"
    method := "GET", headers := [], body := none }

/-- `checkDatabase()`: never throws; `{status:'connected'}` on ok,
`{status:'disconnected'}` on non-ok, `{status:'error', error: message}`
on transport failure. -/
def CartelAPI.checkDatabase (baseUrl : String) (_s : CartelAPI) (t : Transport) :
    StatusRecord × List Request :=
  (match t (dbCheckRequest baseUrl) with
    | .networkFailure msg => { status := "error", error := some msg }
    | .response status _ =>
      if responseOk status then { status := "connected", error := none }
      else { status := "disconnected", error := none },
    [dbCheckRequest baseUrl])

/-! ## Spec-side comparison definitions -/

/-- Modelled from the spec's words (refinement comparison for C5): the
root URL obtained by stripping a literal `/api` *suffix* from the base
URL. -/
def stripApiSuffix (b : String) : String :=
  if ("/api".data).isSuffixOf b.data then String.mk (b.data.take (b.data.length - 4)) else b

/-- A query option counts as supplied when it is present (not
`undefined`). -/
def isSupplied : JsVal → Bool
  | .undefined => false
  | _ => true

/-- Modelled from the claim's words (refinement comparison for C4): the
query string containing exactly the parameters *supplied* in the options,
in the order status, limit, offset. -/
def suppliedQuery (o : BetQueryOptions) : String :=
  URLSearchParams.render
    ((if isSupplied o.status then [("status", o.status.toStr)] else [])
      ++ (if isSupplied o.limit then [("limit", o.limit.toStr)] else [])
      ++ (if isSupplied o.offset then [("offset", o.offset.toStr)] else []))

/-- Modelled from the amended claim for C4: the query string containing
exactly the *truthy* parameters of the options, in the order status,
limit, offset. -/
def truthyQuery (o : BetQueryOptions) : String :=
  String.intercalate "&"
    (((if o.status.truthy then [("status", o.status.toStr)] else [])
      ++ (if o.limit.truthy then [("limit", o.limit.toStr)] else [])
      ++ (if o.offset.truthy then [("offset", o.offset.toStr)] else [])).map
      (fun kv => formEncode kv.1 ++ "=" ++ formEncode kv.2))

/-! ## Lemmas about headers, storage, and string replacement -/

theorem hget_hset_self (h : Headers) (k v : String) : hget (hset h k v) k = some v := by
  induction h with
  | nil => simp [hset, hget]
  | cons p rest ih =>
    obtain ⟨k', v'⟩ := p
    by_cases hk : k' = k
    · simp [hset, hget, hk]
    · simp [hset, hget, hk, ih]

theorem hget_hset_other (h : Headers) (k k' v : String) (hne : k ≠ k') :
    hget (hset h k v) k' = hget h k' := by
  induction h with
  | nil => simp [hset, hget, hne]
  | cons p rest ih =>
    obtain ⟨k1, v1⟩ := p
    by_cases hk : k1 = k
    · subst hk; simp [hset, hget, hne]
    · simp [hset, hget, hk, ih]

theorem hget_hmerge_absent (l : List (String × String)) (h : Headers) (k : String)
    (hh : hget h k = none) (hl : ∀ p ∈ l, p.1 ≠ k) : hget (hmerge h l) k = none := by
  induction l generalizing h with
  | nil => exact hh
  | cons p rest ih =>
    have h1 : hget (hset h p.1 p.2) k = none := by
      rw [hget_hset_other h p.1 k p.2 (hl p (List.mem_cons_self p rest))]
      exact hh
    exact ih (hset h p.1 p.2) h1 (fun q hq => hl q (List.mem_cons_of_mem p hq))

theorem buildHeaders_auth_of_truthy (tok : JsVal) (hs : List (String × String))
    (ht : tok.truthy = true) :
    hget (buildHeaders tok hs) "Authorization" = some ("Bearer " ++ tok.toStr) := by
  simp [buildHeaders, ht, hget_hset_self]

theorem buildHeaders_auth_of_falsy (tok : JsVal) (hs : List (String × String))
    (ht : tok.truthy = false) (hnoauth : ∀ p ∈ hs, p.1 ≠ "Authorization") :
    hget (buildHeaders tok hs) "Authorization" = none := by
  simp only [buildHeaders, ht, Bool.false_eq_true, if_false]
  exact hget_hmerge_absent hs _ _ (by decide) hnoauth

theorem buildHeaders_contentType_caller (tok : JsVal) (hs : List (String × String))
    (ct : String) :
    hget (buildHeaders tok (hs ++ [("Content-Type", ct)])) "Content-Type" = some ct := by
  have hbase : ∀ h : Headers,
      hget (hmerge h (hs ++ [("Content-Type", ct)])) "Content-Type" = some ct := by
    intro h
    simp only [hmerge, List.foldl_append, List.foldl_cons, List.foldl_nil]
    exact hget_hset_self _ _ _
  cases htok : tok.truthy with
  | false => simp only [buildHeaders, htok, Bool.false_eq_true, if_false]; exact hbase _
  | true =>
    simp only [buildHeaders, htok, if_true]
    rw [hget_hset_other _ _ _ _ (by decide)]
    exact hbase _

theorem CartelAPI.fetch_trace (b : String) (s : CartelAPI) (e : String) (o : FetchOptions)
    (t : Transport) : (CartelAPI.fetch b s e o t).2 = [CartelAPI.request b s e o] := rfl

theorem getItem_setItem_self (st : Storage) (k v : String) :
    localStorage.getItem (localStorage.setItem st k v) k = some v := by
  induction st with
  | nil => simp [localStorage.setItem, localStorage.getItem]
  | cons p rest ih =>
    obtain ⟨k', v'⟩ := p
    by_cases hk : k' = k
    · simp [localStorage.setItem, localStorage.getItem, hk]
    · simp [localStorage.setItem, localStorage.getItem, hk, ih]

theorem getItem_setItem_other (st : Storage) (k k' v : String) (hne : k ≠ k') :
    localStorage.getItem (localStorage.setItem st k v) k' = localStorage.getItem st k' := by
  induction st with
  | nil => simp [localStorage.setItem, localStorage.getItem, hne]
  | cons p rest ih =>
    obtain ⟨k1, v1⟩ := p
    by_cases hk : k1 = k
    · subst hk; simp [localStorage.setItem, localStorage.getItem, hne]
    · simp [localStorage.setItem, localStorage.getItem, hk, ih]

theorem getItem_removeItem_self (st : Storage) (k : String) :
    localStorage.getItem (localStorage.removeItem st k) k = none := by
  induction st with
  | nil => simp [localStorage.removeItem, localStorage.getItem]
  | cons p rest ih =>
    obtain ⟨k', v'⟩ := p
    by_cases hk : k' = k
    · simp [localStorage.removeItem, hk, ih]
    · simp [localStorage.removeItem, localStorage.getItem, hk, ih]

theorem getItem_removeItem_other (st : Storage) (k k' : String) (hne : k ≠ k') :
    localStorage.getItem (localStorage.removeItem st k) k' = localStorage.getItem st k' := by
  induction st with
  | nil => simp [localStorage.removeItem]
  | cons p rest ih =>
    obtain ⟨k1, v1⟩ := p
    by_cases hk : k1 = k
    · subst hk; simp [localStorage.removeItem, localStorage.getItem, hne, ih]
    · simp [localStorage.removeItem, localStorage.getItem, hk, ih]

theorem removeFirstL_strip (pat p : List Char)
    (H : ∀ s : List Char, s <:+ p → pat.isPrefixOf (s ++ pat) = true → s = []) :
    removeFirstL pat (p ++ pat) = p := by
  induction p with
  | nil =>
    cases pat with
    | nil => rfl
    | cons c cs =>
      have hpre : (c :: cs).isPrefixOf (c :: cs) = true :=
        List.isPrefixOf_iff_prefix.mpr (List.prefix_refl _)
      simp [removeFirstL, hpre]
  | cons a as ih =>
    have H2 : ∀ s : List Char, s <:+ as → pat.isPrefixOf (s ++ pat) = true → s = [] :=
      fun s hs hp => H s (hs.trans (List.suffix_cons a as)) hp
    cases hp : pat.isPrefixOf (a :: (as ++ pat)) with
    | true =>
      have hcontra := H (a :: as) (List.suffix_refl _) (by simpa using hp)
      simp at hcontra
    | false =>
      calc removeFirstL pat ((a :: as) ++ pat)
          = a :: removeFirstL pat (as ++ pat) := by simp [removeFirstL, hp]
        _ = a :: as := by rw [ih H2]

/-! ## Claim C1 -/

/-- C1 counterexample: against a 500 response whose body is unparseable
as JSON, the generic request helper does not throw
`Error("API Error: 500")` — `response.json()` itself rejects, and that
JSON parse failure propagates instead. -/
theorem C1_counterexample_unparseable_500 :
    (CartelAPI.fetch defaultBackendUrl ⟨.null, .null, .null⟩ "/games"
      FetchOptions.none (fun _ => .response 500 .unparseable)).1 =
      .error .jsonSyntaxError ∧
    JsErr.jsonSyntaxError ≠ JsErr.error "API Error: 500" :=
  ⟨rfl, by decide⟩

/-- C1 (amended): for every call through the generic request helper with
a non-2xx response, the thrown message equals the body's `error` field
when the body parses as JSON with a non-empty string `error` field, and
equals "API Error: <status>" when the body parses as JSON to a value on
which the `error` member access succeeds but yields a falsy value
(missing field, empty string, `null`, `0`, `false`); when the body
parses to JSON `null`, the member access `error.error` itself throws a
TypeError which propagates; when the body is unparseable as JSON, the
JSON parse failure itself propagates (so in neither of the last two
cases is the thrown message "API Error: <status>"). -/
theorem C1_amended_error_message (b : String) (s : CartelAPI) (e : String)
    (o : FetchOptions) (t : Transport) (status : Nat) (body : RespBody)
    (ht : t (CartelAPI.request b s e o) = .response status body)
    (hstatus : responseOk status = false) :
    (∀ v m, body = .json v → v.getProp "error" = .ok (.str m) → m ≠ "" →
      (CartelAPI.fetch b s e o t).1 = .error (.error m)) ∧
    (∀ v ev, body = .json v → v.getProp "error" = .ok ev → ev.truthy = false →
      (CartelAPI.fetch b s e o t).1 =
        .error (.error ("API Error: " ++ toString status))) ∧
    (body = .json .null → (CartelAPI.fetch b s e o t).1 = .error .typeError) ∧
    (body = .unparseable → (CartelAPI.fetch b s e o t).1 = .error .jsonSyntaxError) := by
  refine ⟨?_, ?_, ?_, ?_⟩
  · intro v m hb he hm
    subst hb
    simp [CartelAPI.fetch, ht, hstatus, he, JsVal.truthy, JsVal.toStr, hm]
  · intro v ev hb he htr
    subst hb
    simp [CartelAPI.fetch, ht, hstatus, he, htr]
  · intro hb
    subst hb
    simp [CartelAPI.fetch, ht, hstatus, JsVal.getProp]
  · intro hb
    subst hb
    simp [CartelAPI.fetch, ht, hstatus]

/-- C1 witness: a 401 response with body `{"error":"invalid token"}`
makes the helper throw `Error("invalid token")`. -/
theorem C1_witness :
    (CartelAPI.fetch defaultBackendUrl ⟨.null, .null, .null⟩ "/bets/place"
      FetchOptions.none
      (fun _ => .response 401 (.json (.obj [("error", .str "invalid token")])))).1 =
      .error (.error "invalid token") :=
  (C1_amended_error_message defaultBackendUrl ⟨.null, .null, .null⟩ "/bets/place"
      FetchOptions.none
      (fun _ => .response 401 (.json (.obj [("error", .str "invalid token")])))
      401 (.json (.obj [("error", .str "invalid token")])) rfl (by decide)).1
    (.obj [("error", .str "invalid token")]) "invalid token" rfl rfl (by decide)

/-! ## Claim C2 -/

/-- C2 counterexample: with a non-null session token (`"t1"`),
`checkHealth` still issues its single request with no `Authorization`
header at all, because it calls the raw global `fetch` with no options —
refuting the claimed invariant for the health-check methods. -/
theorem C2_counterexample_health_no_bearer :
    (CartelAPI.checkHealth defaultBackendUrl ⟨.str "t1", .str "u1", .str "0xABC"⟩
        (fun _ => .networkFailure "down")).2.map
      (fun r => hget r.headers "Authorization") = [none] ∧
    (none : Option String) ≠ some ("Bearer " ++ "t1") :=
  ⟨rfl, by decide⟩

/-- C2 (amended): every request issued through the generic request helper
carries `Authorization: Bearer <token>` whenever the session token is a
non-empty string, and carries no `Authorization` header when the token is
null (and the caller supplied none); the two health-check methods, which
bypass the helper, attach no headers at all to their requests. -/
theorem C2_amended_bearer_invariant (b : String) (s : CartelAPI) (e tk : String)
    (o : FetchOptions) (t : Transport) :
    (s.token = .str tk → tk ≠ "" →
      (CartelAPI.fetch b s e o t).2.map (fun r => hget r.headers "Authorization") =
        [some ("Bearer " ++ tk)]) ∧
    (s.token = .null → (∀ p ∈ o.headers, p.1 ≠ "Authorization") →
      (CartelAPI.fetch b s e o t).2.map (fun r => hget r.headers "Authorization") =
        [none]) ∧
    (CartelAPI.checkHealth b s t).2.map Request.headers = [[]] ∧
    (CartelAPI.checkDatabase b s t).2.map Request.headers = [[]] := by
  refine ⟨?_, ?_, rfl, rfl⟩
  · intro hs htk
    have htr : JsVal.truthy (.str tk) = true := by simp [JsVal.truthy, htk]
    have hauth : hget (buildHeaders s.token o.headers) "Authorization" =
        some ("Bearer " ++ tk) := by
      rw [hs]
      simpa [JsVal.toStr] using buildHeaders_auth_of_truthy (.str tk) o.headers htr
    rw [CartelAPI.fetch_trace]
    simp [CartelAPI.request, hauth]
  · intro hs hno
    have htr : JsVal.truthy s.token = false := by rw [hs]; rfl
    have hauth := buildHeaders_auth_of_falsy s.token o.headers htr hno
    rw [CartelAPI.fetch_trace]
    simp [CartelAPI.request, hauth]

/-- C2 witness: with token `"t1"`, a helper-routed request carries
`Authorization: Bearer t1`. -/
theorem C2_witness :
    (CartelAPI.fetch defaultBackendUrl ⟨.str "t1", .str "u1", .str "0xABC"⟩ "/games"
        FetchOptions.none (fun _ => .networkFailure "down")).2.map
      (fun r => hget r.headers "Authorization") = [some ("Bearer " ++ "t1")] :=
  (C2_amended_bearer_invariant defaultBackendUrl ⟨.str "t1", .str "u1", .str "0xABC"⟩
      "/games" "t1" FetchOptions.none (fun _ => .networkFailure "down")).1 rfl (by decide)

/-! ## Claim C3 -/

/-- C3: each authenticated method (`placeBet`, `getBet`, `settleBet`,
`getUserBets`, `deposit`, `withdraw`, `getTransactions`), invoked with a
null token (null `userId` for `getUserBets`), fails synchronously with
`Error("Not authenticated")` (the spec's AuthRequiredError) and issues
zero network requests. -/
theorem C3_auth_required_no_network (b : String) (s : CartelAPI) (t : Transport)
    (gameId betId clientSeed tokenSymbol : String) (amt : Int) (ty : JsVal)
    (opts : BetQueryOptions)
    (htok : s.token = .null) (huid : s.userId = .null) :
    CartelAPI.placeBet b s gameId amt clientSeed t =
      (.error (.error "Not authenticated"), []) ∧
    CartelAPI.getBet b s betId t = (.error (.error "Not authenticated"), []) ∧
    CartelAPI.settleBet b s betId t = (.error (.error "Not authenticated"), []) ∧
    CartelAPI.getUserBets b s opts t = (.error (.error "Not authenticated"), []) ∧
    CartelAPI.deposit b s amt tokenSymbol t = (.error (.error "Not authenticated"), []) ∧
    CartelAPI.withdraw b s amt tokenSymbol t = (.error (.error "Not authenticated"), []) ∧
    CartelAPI.getTransactions b s ty t = (.error (.error "Not authenticated"), []) := by
  have h1 : s.token.truthy = false := by rw [htok]; rfl
  have h2 : s.userId.truthy = false := by rw [huid]; rfl
  refine ⟨?_, ?_, ?_, ?_, ?_, ?_, ?_⟩ <;>
    simp [CartelAPI.placeBet, CartelAPI.getBet, CartelAPI.settleBet,
      CartelAPI.getUserBets, CartelAPI.deposit, CartelAPI.withdraw,
      CartelAPI.getTransactions, h1, h2]

/-- C3 witness: `placeBet` with an empty session fails with
`Error("Not authenticated")` and an empty request trace. -/
theorem C3_witness :
    CartelAPI.placeBet defaultBackendUrl ⟨.null, .null, .null⟩ "game1" 5 "seed"
      (fun _ => .networkFailure "down") = (.error (.error "Not authenticated"), []) :=
  (C3_auth_required_no_network defaultBackendUrl ⟨.null, .null, .null⟩
    (fun _ => .networkFailure "down") "game1" "bet1" "seed" "USDC" 5 .null
    ⟨.undefined, .undefined, .undefined⟩ rfl rfl).1

/-! ## Claim C4 -/

/-- C4 counterexample: `getUserBets({status:"pending", limit:0})` omits
`limit` from the query string even though it was supplied, because the
code tests each option for JS truthiness (`if (options.limit)`) and `0`
is falsy — refuting "contains exactly the ... parameters supplied". -/
theorem C4_counterexample_falsy_limit :
    (CartelAPI.getUserBets defaultBackendUrl ⟨.str "t1", .str "u1", .str "0xABC"⟩
        ⟨.str "pending", .num 0, .undefined⟩ (fun _ => .networkFailure "down")).2.map
      Request.url =
      [defaultBackendUrl ++ ("/bets/user/" ++ "u1" ++ "?" ++ "status=pending")] ∧
    suppliedQuery ⟨.str "pending", .num 0, .undefined⟩ = "status=pending&limit=0" ∧
    ("status=pending" : String) ≠ "status=pending&limit=0" :=
  ⟨rfl, rfl, by decide⟩

/-- C4 (amended): `getUserBets(options)` requests the URL
`{base}/bets/user/{userId}?` followed by a query string containing
exactly the *truthy* options among status, limit, offset, in that order
(options supplied with falsy values such as `0` or `""` are omitted like
missing ones); in particular `{status:"pending", limit:10}` yields
exactly `status=pending&limit=10` with offset omitted. -/
theorem C4_amended_query_params (b uid : String) (opts : BetQueryOptions)
    (s : CartelAPI) (t : Transport) (huid : uid ≠ "") (hs : s.userId = .str uid) :
    (CartelAPI.getUserBets b s opts t).2.map Request.url =
      [b ++ ("/bets/user/" ++ uid ++ "?" ++ truthyQuery opts)] ∧
    truthyQuery ⟨.str "pending", .num 10, .undefined⟩ = "status=pending&limit=10" := by
  refine ⟨?_, rfl⟩
  have h2 : (JsVal.str uid).truthy = true := by simp [JsVal.truthy, huid]
  have htq : URLSearchParams.render (betQueryParams opts) = truthyQuery opts := rfl
  simp [CartelAPI.getUserBets, hs, h2, CartelAPI.fetch_trace, CartelAPI.request, htq,
    JsVal.toStr]

/-- C4 witness: the amended statement at
`{status:"pending", limit:10}` and user id `u1`. -/
theorem C4_witness :
    (CartelAPI.getUserBets defaultBackendUrl ⟨.str "t1", .str "u1", .str "0xABC"⟩
        ⟨.str "pending", .num 10, .undefined⟩ (fun _ => .networkFailure "down")).2.map
      Request.url =
      [defaultBackendUrl ++
        ("/bets/user/" ++ "u1" ++ "?" ++ truthyQuery ⟨.str "pending", .num 10, .undefined⟩)] :=
  (C4_amended_query_params defaultBackendUrl "u1" ⟨.str "pending", .num 10, .undefined⟩
    ⟨.str "t1", .str "u1", .str "0xABC"⟩ (fun _ => .networkFailure "down")
    (by decide) rfl).1

/-! ## Claim C5 -/

/-- C5 counterexample: with the configured base URL
`http://x/apifoo/api`, `checkHealth` requests
`http://xfoo/api/health` — `replace('/api','')` removed the *first*
occurrence of `/api` (inside `/apifoo`), not the trailing suffix, so the
requested URL differs from the suffix-stripped root the claim
describes. -/
theorem C5_counterexample_inner_api :
    (CartelAPI.checkHealth "http://x/apifoo/api" ⟨.null, .null, .null⟩
        (fun _ => .networkFailure "down")).2.map Request.url =
      ["http://xfoo/api" ++ "/health"] ∧
    stripApiSuffix "http://x/apifoo/api" ++ "/health" = "http://x/apifoo" ++ "/health" ∧
    ("http://xfoo/api" ++ "/health" : String) ≠ "http://x/apifoo" ++ "/health" :=
  ⟨rfl, rfl, by decide⟩

/-- C5 (amended): `checkHealth`/`checkDatabase` derive the root URL by
removing the *first* occurrence of the literal substring `/api` from the
base URL; whenever no earlier or overlapping occurrence exists — in
particular for the default base URL — this coincides with stripping the
trailing `/api`, and the requested URLs are `{root}/health` and
`{root}/db-check`. -/
theorem C5_amended_first_occurrence (p : String) (s : CartelAPI) (t : Transport)
    (hp : (p.data.tails.all fun u =>
      u.isEmpty || !(("/api".data).isPrefixOf (u ++ "/api".data))) = true) :
    (CartelAPI.checkHealth (p ++ "/api") s t).2.map Request.url = [p ++ "/health"] ∧
    (CartelAPI.checkDatabase (p ++ "/api") s t).2.map Request.url = [p ++ "/db-check"] := by
  have H : ∀ u : List Char, u <:+ p.data →
      ("/api".data).isPrefixOf (u ++ "/api".data) = true → u = [] := by
    intro u hu hpre
    have hall := (List.all_eq_true.mp hp) u ((List.mem_tails _ _).mpr hu)
    rw [hpre] at hall
    simpa using hall
  have hstrip : strReplaceFirst (p ++ "/api") "/api" = p := by
    show String.mk (removeFirstL "/api".data (p ++ "/api").data) = p
    rw [String.data_append, removeFirstL_strip "/api".data p.data H]
  constructor
  · show [Request.url (healthRequest (p ++ "/api"))] = [p ++ "/health"]
    simp [healthRequest, hstrip]
  · show [Request.url (dbCheckRequest (p ++ "/api"))] = [p ++ "/db-check"]
    simp [dbCheckRequest, hstrip]

/-- C5 witness: the amended statement at the default root
`http://localhost:3001`. -/
theorem C5_witness :
    (CartelAPI.checkHealth ("http://localhost:3001" ++ "/api") ⟨.null, .null, .null⟩
        (fun _ => .networkFailure "down")).2.map Request.url =
      ["http://localhost:3001" ++ "/health"] :=
  (C5_amended_first_occurrence "http://localhost:3001" ⟨.null, .null, .null⟩
    (fun _ => .networkFailure "down") (by decide)).1

/-! ## Claim C6 -/

/-- C6: `checkHealth` never raises: on a transport failure it resolves to
`{status:"offline", error: <message>}`, and on an HTTP response it
resolves to `{status:"healthy"}` when the status is 2xx and
`{status:"unhealthy"}` otherwise; `checkDatabase` follows the same
pattern with `connected`/`disconnected`/`error`. -/
theorem C6_health_never_raises (b : String) (s : CartelAPI) (t : Transport)
    (status : Nat) (body : RespBody) (msg : String) :
    (t (healthRequest b) = .networkFailure msg →
      (CartelAPI.checkHealth b s t).1 = { status := "offline", error := some msg }) ∧
    (t (healthRequest b) = .response status body →
      (CartelAPI.checkHealth b s t).1 =
        if responseOk status then { status := "healthy", error := none }
        else { status := "unhealthy", error := none }) ∧
    (t (dbCheckRequest b) = .networkFailure msg →
      (CartelAPI.checkDatabase b s t).1 = { status := "error", error := some msg }) ∧
    (t (dbCheckRequest b) = .response status body →
      (CartelAPI.checkDatabase b s t).1 =
        if responseOk status then { status := "connected", error := none }
        else { status := "disconnected", error := none }) := by
  refine ⟨?_, ?_, ?_, ?_⟩ <;> intro h <;>
    simp [CartelAPI.checkHealth, CartelAPI.checkDatabase, h]

/-- C6 witness: against an unreachable host, `checkHealth` resolves to
`{status:"offline", error:"Failed to fetch"}`. -/
theorem C6_witness :
    (CartelAPI.checkHealth defaultBackendUrl ⟨.null, .null, .null⟩
      (fun _ => .networkFailure "Failed to fetch")).1 =
      { status := "offline", error := some "Failed to fetch" } :=
  (C6_health_never_raises defaultBackendUrl ⟨.null, .null, .null⟩
    (fun _ => .networkFailure "Failed to fetch") 200 .unparseable "Failed to fetch").1 rfl

/-! ## Claim C7 -/

/-- C7: `authenticateWallet(address, signature)` POSTs to
`/auth/connect`; on a 200 response whose body carries non-empty string
`token` and `userId` fields, the session becomes (server token, server
userId, supplied address) and is persisted; with that session every
helper-routed request carries `Authorization: Bearer <token>` and
`getUserBets` targets `/bets/user/<userId>`. -/
theorem C7_auth_sets_session (b addr sig tok uid : String) (s0 : CartelAPI)
    (st0 : Storage) (v : JsVal) (t : Transport)
    (htok : tok ≠ "") (huid : uid ≠ "")
    (ht : ∀ r, t r = .response 200 (.json v))
    (hv1 : v.getProp "token" = .ok (.str tok))
    (hv2 : v.getProp "userId" = .ok (.str uid)) :
    (CartelAPI.authenticateWallet b s0 st0 addr sig t).2.1 =
      ⟨.str tok, .str uid, .str addr⟩ ∧
    localStorage.getItem (CartelAPI.authenticateWallet b s0 st0 addr sig t).2.2.1
      "cartel47_token" = some tok ∧
    localStorage.getItem (CartelAPI.authenticateWallet b s0 st0 addr sig t).2.2.1
      "cartel47_userId" = some uid ∧
    localStorage.getItem (CartelAPI.authenticateWallet b s0 st0 addr sig t).2.2.1
      "cartel47_wallet" = some addr ∧
    (∀ e o t2, (CartelAPI.fetch b ⟨.str tok, .str uid, .str addr⟩ e o t2).2.map
      (fun r => hget r.headers "Authorization") = [some ("Bearer " ++ tok)]) ∧
    (∀ opts t2,
      (CartelAPI.getUserBets b ⟨.str tok, .str uid, .str addr⟩ opts t2).2.map
        Request.url =
      [b ++ ("/bets/user/" ++ uid ++ "?" ++
        URLSearchParams.render (betQueryParams opts))]) := by
  have hok : responseOk 200 = true := rfl
  have hfetch : CartelAPI.fetch b s0 "/auth/connect"
      ⟨some "POST", [],
        some (JSON.stringifyObj
          [("walletAddress", .str addr), ("signature", .str sig)])⟩ t =
      (.ok v, [CartelAPI.request b s0 "/auth/connect"
        ⟨some "POST", [],
          some (JSON.stringifyObj
            [("walletAddress", .str addr), ("signature", .str sig)])⟩]) := by
    simp [CartelAPI.fetch, ht, hok]
  have hred : CartelAPI.authenticateWallet b s0 st0 addr sig t =
      (.ok v, ⟨.str tok, .str uid, .str addr⟩,
        localStorage.setItem
          (localStorage.setItem (localStorage.setItem st0 "cartel47_token" tok)
            "cartel47_userId" uid)
          "cartel47_wallet" addr,
        [CartelAPI.request b s0 "/auth/connect"
          ⟨some "POST", [],
            some (JSON.stringifyObj
              [("walletAddress", .str addr), ("signature", .str sig)])⟩]) := by
    rw [CartelAPI.authenticateWallet, hfetch]
    simp [CartelAPI.setToken, hv1, hv2, JsVal.toStr]
  refine ⟨by rw [hred], ?_, ?_, ?_, ?_, ?_⟩
  · rw [hred]
    show localStorage.getItem (localStorage.setItem (localStorage.setItem
      (localStorage.setItem st0 "cartel47_token" tok) "cartel47_userId" uid)
      "cartel47_wallet" addr) "cartel47_token" = some tok
    rw [getItem_setItem_other _ _ _ _ (by decide),
      getItem_setItem_other _ _ _ _ (by decide), getItem_setItem_self]
  · rw [hred]
    show localStorage.getItem (localStorage.setItem (localStorage.setItem
      (localStorage.setItem st0 "cartel47_token" tok) "cartel47_userId" uid)
      "cartel47_wallet" addr) "cartel47_userId" = some uid
    rw [getItem_setItem_other _ _ _ _ (by decide), getItem_setItem_self]
  · rw [hred]
    show localStorage.getItem (localStorage.setItem (localStorage.setItem
      (localStorage.setItem st0 "cartel47_token" tok) "cartel47_userId" uid)
      "cartel47_wallet" addr) "cartel47_wallet" = some addr
    rw [getItem_setItem_self]
  · intro e o t2
    have htr : JsVal.truthy (.str tok) = true := by simp [JsVal.truthy, htok]
    have hauth := buildHeaders_auth_of_truthy (.str tok) o.headers htr
    rw [CartelAPI.fetch_trace]
    simp [CartelAPI.request, JsVal.toStr] at hauth ⊢
    exact hauth
  · intro opts t2
    have h2 : (JsVal.str uid).truthy = true := by simp [JsVal.truthy, huid]
    simp [CartelAPI.getUserBets, h2, CartelAPI.fetch_trace, CartelAPI.request,
      JsVal.toStr]

/-- C7 witness: the mocked success response `{token:"t1", userId:"u1"}`
yields the session `(t1, u1, 0xABC)`. -/
theorem C7_witness :
    (CartelAPI.authenticateWallet defaultBackendUrl ⟨.null, .null, .null⟩ []
        "0xABC" "sig"
        (fun _ => .response 200
          (.json (.obj [("token", .str "t1"), ("userId", .str "u1")])))).2.1 =
      ⟨.str "t1", .str "u1", .str "0xABC"⟩ :=
  (C7_auth_sets_session defaultBackendUrl "0xABC" "sig" "t1" "u1"
    ⟨.null, .null, .null⟩ [] (.obj [("token", .str "t1"), ("userId", .str "u1")])
    (fun _ => .response 200
      (.json (.obj [("token", .str "t1"), ("userId", .str "u1")])))
    (by decide) (by decide) (fun _ => rfl) rfl rfl).1

/-! ## Claim C8 -/

/-- C8: for all values, `setToken(t, u, w)` followed by `clearSession()`
leaves all three session fields null and all three persisted keys
absent. -/
theorem C8_set_then_clear (tk u w : JsVal) (s0 : CartelAPI) (st0 : Storage) :
    (CartelAPI.clearSession (CartelAPI.setToken s0 st0 tk u w).1
        (CartelAPI.setToken s0 st0 tk u w).2).1.token = JsVal.null ∧
    (CartelAPI.clearSession (CartelAPI.setToken s0 st0 tk u w).1
        (CartelAPI.setToken s0 st0 tk u w).2).1.userId = JsVal.null ∧
    (CartelAPI.clearSession (CartelAPI.setToken s0 st0 tk u w).1
        (CartelAPI.setToken s0 st0 tk u w).2).1.walletAddress = JsVal.null ∧
    localStorage.getItem (CartelAPI.clearSession (CartelAPI.setToken s0 st0 tk u w).1
      (CartelAPI.setToken s0 st0 tk u w).2).2 "cartel47_token" = none ∧
    localStorage.getItem (CartelAPI.clearSession (CartelAPI.setToken s0 st0 tk u w).1
      (CartelAPI.setToken s0 st0 tk u w).2).2 "cartel47_userId" = none ∧
    localStorage.getItem (CartelAPI.clearSession (CartelAPI.setToken s0 st0 tk u w).1
      (CartelAPI.setToken s0 st0 tk u w).2).2 "cartel47_wallet" = none := by
  refine ⟨rfl, rfl, rfl, ?_, ?_, ?_⟩ <;> simp only [CartelAPI.clearSession]
  · rw [getItem_removeItem_other _ _ _ (by decide),
      getItem_removeItem_other _ _ _ (by decide), getItem_removeItem_self]
  · rw [getItem_removeItem_other _ _ _ (by decide), getItem_removeItem_self]
  · rw [getItem_removeItem_self]

/-! ## Claim C9 -/

/-- C9: in the generic request helper the caller's headers are merged
before the bearer token is applied: with a non-empty string token the
outgoing `Authorization` header equals `Bearer <token>` even when the
caller supplied its own `Authorization` entry, while a caller-supplied
`Content-Type` does override the default `application/json`. -/
theorem C9_merge_then_bearer (b e tk ct : String) (s : CartelAPI) (m bd : Option String)
    (hs hs2 : List (String × String)) (t : Transport)
    (hstok : s.token = .str tk) (htk : tk ≠ "") :
    (CartelAPI.fetch b s e ⟨m, hs, bd⟩ t).2.map
      (fun r => hget r.headers "Authorization") = [some ("Bearer " ++ tk)] ∧
    (CartelAPI.fetch b s e ⟨m, hs2 ++ [("Content-Type", ct)], bd⟩ t).2.map
      (fun r => hget r.headers "Content-Type") = [some ct] := by
  have htr : JsVal.truthy (.str tk) = true := by simp [JsVal.truthy, htk]
  constructor
  · have hauth : hget (buildHeaders s.token hs) "Authorization" =
        some ("Bearer " ++ tk) := by
      rw [hstok]
      simpa [JsVal.toStr] using buildHeaders_auth_of_truthy (.str tk) hs htr
    rw [CartelAPI.fetch_trace]
    simp [CartelAPI.request, hauth]
  · have hct := buildHeaders_contentType_caller s.token hs2 ct
    rw [CartelAPI.fetch_trace]
    simp [CartelAPI.request, hct]

/-- C9 witness: with token `t1` and a caller-supplied
`Authorization: Bearer evil`, the outgoing header is still
`Bearer t1`. -/
theorem C9_witness :
    (CartelAPI.fetch defaultBackendUrl ⟨.str "t1", .null, .null⟩ "/games"
        ⟨none, [("Authorization", "Bearer evil")], none⟩
        (fun _ => .networkFailure "down")).2.map
      (fun r => hget r.headers "Authorization") = [some ("Bearer " ++ "t1")] :=
  (C9_merge_then_bearer defaultBackendUrl "/games" "t1" "text/plain"
    ⟨.str "t1", .null, .null⟩ none none [("Authorization", "Bearer evil")] []
    (fun _ => .networkFailure "down") rfl (by decide)).1

/-! ## Claim C10 -/

/-- C10 counterexample: a 2xx response whose body is the JSON text
`null` refutes "on any 2xx response it unconditionally overwrites the
session ... and persists": the member access `data.token` throws a
TypeError before `setToken` runs, so the call rejects and the session
and storage are left untouched. -/
theorem C10_counterexample_null_body :
    (CartelAPI.authenticateWallet defaultBackendUrl ⟨.null, .null, .null⟩ []
        "0xABC" "sig" (fun _ => .response 200 (.json .null))).1 =
      .error .typeError ∧
    (CartelAPI.authenticateWallet defaultBackendUrl ⟨.null, .null, .null⟩ []
        "0xABC" "sig" (fun _ => .response 200 (.json .null))).2.1 =
      ⟨.null, .null, .null⟩ ∧
    (CartelAPI.authenticateWallet defaultBackendUrl ⟨.null, .null, .null⟩ []
        "0xABC" "sig" (fun _ => .response 200 (.json .null))).2.2.1 = [] :=
  ⟨rfl, rfl, rfl⟩

/-- C10 (amended): `authenticateWallet` performs no validation of the
success response beyond what member access forces: on a 2xx response
whose JSON body is a value on which the `token` and `userId` accesses
succeed but yield `undefined` (e.g. an object lacking both fields), it
resolves successfully, overwrites the session with `undefined` token and
userId, persists the coerced string `"undefined"` for both, and every
subsequent `placeBet` fails as unauthenticated without a network call;
on a 2xx response whose body is JSON `null`, the `data.token` access
throws a TypeError before `setToken` runs, leaving session and storage
untouched. -/
theorem C10_amended_no_validation (b addr sig : String) (s0 : CartelAPI)
    (st0 : Storage) (v : JsVal) (t : Transport) (status : Nat)
    (ht : ∀ r, t r = .response status (.json v)) (hok : responseOk status = true)
    (h1 : v.getProp "token" = .ok .undefined)
    (h2 : v.getProp "userId" = .ok .undefined) :
    (CartelAPI.authenticateWallet b s0 st0 addr sig t).1 = .ok v ∧
    (CartelAPI.authenticateWallet b s0 st0 addr sig t).2.1.token = .undefined ∧
    (CartelAPI.authenticateWallet b s0 st0 addr sig t).2.1.userId = .undefined ∧
    localStorage.getItem (CartelAPI.authenticateWallet b s0 st0 addr sig t).2.2.1
      "cartel47_token" = some "undefined" ∧
    localStorage.getItem (CartelAPI.authenticateWallet b s0 st0 addr sig t).2.2.1
      "cartel47_userId" = some "undefined" ∧
    (∀ g amt seed t2, CartelAPI.placeBet b
      (CartelAPI.authenticateWallet b s0 st0 addr sig t).2.1 g amt seed t2 =
      (.error (.error "Not authenticated"), [])) ∧
    (∀ t2 : Transport, (∀ r, t2 r = .response status (.json .null)) →
      (CartelAPI.authenticateWallet b s0 st0 addr sig t2).1 = .error .typeError ∧
      (CartelAPI.authenticateWallet b s0 st0 addr sig t2).2.1 = s0 ∧
      (CartelAPI.authenticateWallet b s0 st0 addr sig t2).2.2.1 = st0) := by
  have hfetch : CartelAPI.fetch b s0 "/auth/connect"
      ⟨some "POST", [],
        some (JSON.stringifyObj
          [("walletAddress", .str addr), ("signature", .str sig)])⟩ t =
      (.ok v, [CartelAPI.request b s0 "/auth/connect"
        ⟨some "POST", [],
          some (JSON.stringifyObj
            [("walletAddress", .str addr), ("signature", .str sig)])⟩]) := by
    simp [CartelAPI.fetch, ht, hok]
  have hred : CartelAPI.authenticateWallet b s0 st0 addr sig t =
      (.ok v, ⟨.undefined, .undefined, .str addr⟩,
        localStorage.setItem
          (localStorage.setItem (localStorage.setItem st0 "cartel47_token" "undefined")
            "cartel47_userId" "undefined")
          "cartel47_wallet" addr,
        [CartelAPI.request b s0 "/auth/connect"
          ⟨some "POST", [],
            some (JSON.stringifyObj
              [("walletAddress", .str addr), ("signature", .str sig)])⟩]) := by
    rw [CartelAPI.authenticateWallet, hfetch]
    simp [CartelAPI.setToken, h1, h2, JsVal.toStr]
  refine ⟨by rw [hred], by rw [hred], by rw [hred], ?_, ?_, ?_, ?_⟩
  · rw [hred]
    show localStorage.getItem (localStorage.setItem (localStorage.setItem
      (localStorage.setItem st0 "cartel47_token" "undefined") "cartel47_userId"
      "undefined") "cartel47_wallet" addr) "cartel47_token" = some "undefined"
    rw [getItem_setItem_other _ _ _ _ (by decide),
      getItem_setItem_other _ _ _ _ (by decide), getItem_setItem_self]
  · rw [hred]
    show localStorage.getItem (localStorage.setItem (localStorage.setItem
      (localStorage.setItem st0 "cartel47_token" "undefined") "cartel47_userId"
      "undefined") "cartel47_wallet" addr) "cartel47_userId" = some "undefined"
    rw [getItem_setItem_other _ _ _ _ (by decide), getItem_setItem_self]
  · intro g amt seed t2
    rw [hred]
    simp [CartelAPI.placeBet, JsVal.truthy]
  · intro t2 ht2
    have hfetch2 : CartelAPI.fetch b s0 "/auth/connect"
        ⟨some "POST", [],
          some (JSON.stringifyObj
            [("walletAddress", .str addr), ("signature", .str sig)])⟩ t2 =
        (.ok .null, [CartelAPI.request b s0 "/auth/connect"
          ⟨some "POST", [],
            some (JSON.stringifyObj
              [("walletAddress", .str addr), ("signature", .str sig)])⟩]) := by
      simp [CartelAPI.fetch, ht2, hok]
    refine ⟨?_, ?_, ?_⟩ <;> rw [CartelAPI.authenticateWallet, hfetch2] <;>
      simp [JsVal.getProp]

/-- C10 witness: a 200 response with body `{}` leaves the session
`undefined` and `placeBet` still failing as unauthenticated. -/
theorem C10_witness :
    (CartelAPI.authenticateWallet defaultBackendUrl ⟨.null, .null, .null⟩ []
        "0xABC" "sig" (fun _ => .response 200 (.json (.obj [])))).2.1.token =
      JsVal.undefined :=
  (C10_amended_no_validation defaultBackendUrl "0xABC" "sig" ⟨.null, .null, .null⟩
    [] (.obj []) (fun _ => .response 200 (.json (.obj []))) 200
    (fun _ => rfl) rfl rfl rfl).2.1
